import Mathlib

/-!
# Verification of the Google Calendar / Tasks integration core

A shallow embedding, in Lean 4, of the core service layer of the
`obsidian-calendar-integration-plugin` repository:

* `withRetry` and its `RetryConfig` (src/services/base-service.ts),
* `GoogleCalendarAPI.makeRequest` / `refreshAccessToken` and the fetch
  wrappers (src/api/google-calendar-api.ts),
* the client-side task date filtering of `getTasksForDate` /
  `getTasksForDateRange`,
* the `GoogleCalendarFacade` / `GoogleTasksFacade` cache and mutation
  operations (src/services/google-tasks-facade.ts and the calendar facade),
* the `OAuthServer` callback handling (src/auth/oauth-server.ts).

Modelling conventions:

* JavaScript numbers used as millisecond durations/delays are modelled as
  `ℚ` (for backoff arithmetic) or `Nat`/`Int` (for timestamps); dates are
  modelled on an idealised calendar where day `d` starts at instant
  `d * 86400000` ms (no DST; `Date.setHours` on a parsed date string then
  corresponds to the arithmetic below).
* Asynchronous effects are modelled by explicit state passing: each
  `requestUrl` call consumes the next element of a `transport` list of
  outcomes, and every run returns the log of HTTP requests that were
  issued, so "exactly one network call" claims are statements about that
  log.
* JavaScript truthiness of strings (`if (!x)`, `x || d`) is modelled
  explicitly: `none` and `some ""` are falsy.
* `Math.random()` is modelled as an oracle `rand : Nat → ℚ` with the
  hypothesis `0 ≤ rand i < 1` where a theorem needs it.
-/

/-! ## JavaScript-style helpers -/

/-- JS truthiness of an optional string: `undefined` and `""` are falsy. -/
def jsTruthy : Option String → Bool
  | none => false
  | some s => s ≠ ""

/-- JS `x || d` for an optional string `x` and default `d`. -/
def jsOr (x : Option String) (d : String) : String :=
  match x with
  | none => d
  | some s => if s = "" then d else s

/-- `s.includes(pat)` for a non-empty pattern, via `String.splitOn`. -/
def strContains (s pat : String) : Bool :=
  (s.splitOn pat).length ≥ 2

/-! ## Errors

JavaScript errors are duck-typed; the code distinguishes them by their
`message` string, an optional `status` field (set on `requestUrl`
rejections), and the `ServiceError` wrapper class of base-service.ts. -/

/-- The error values that flow through the modelled code. -/
inductive Err where
  /-- `new Error(message)`. -/
  | error (message : String)
  /-- a rejected `requestUrl` call: carries an optional HTTP `status`. -/
  | httpError (status : Option Nat) (message : String)
  /-- `new ServiceError(message, serviceName, originalError?)`. -/
  | serviceError (message : String) (serviceName : String)
      (originalError : Option Err)

/-- `error.message`. -/
def Err.messageF : Err → String
  | .error m => m
  | .httpError _ m => m
  | .serviceError m _ _ => m

/-- `error?.status` (only `requestUrl` rejections carry one). -/
def Err.statusF : Err → Option Nat
  | .httpError s _ => s
  | _ => none

/-! ## `withRetry` (src/services/base-service.ts, lines 174–221)

The merged configuration `{...DEFAULT_RETRY_CONFIG, ...config}` is
modelled directly as a record with every field present. The function
under retry is an oracle `fn : Nat → Except Err α` giving the outcome of
its `i`-th invocation, and `rand : Nat → ℚ` gives the `Math.random()`
value drawn before the retry that follows failed attempt `i`. A run is
summarised by its result, the number of `fn` invocations, and the list
of delays slept (in order). -/

/-- `Required<RetryConfig>`: the merged retry configuration. -/
structure RetryConfigL where
  maxRetries : Nat
  initialDelay : ℚ
  backoffMultiplier : ℚ
  maxDelay : ℚ
  useJitter : Bool
  isRetryable : Err → Bool

/-- The default `isRetryable` predicate of `DEFAULT_RETRY_CONFIG`. -/
def defaultIsRetryable (e : Err) : Bool :=
  let message := e.messageF.toLower
  strContains message "network" ||
  strContains message "timeout" ||
  strContains message "econnreset" ||
  strContains message "enotfound" ||
  strContains message "rate limit" ||
  strContains message "429" ||
  strContains message "500" ||
  strContains message "502" ||
  strContains message "503" ||
  strContains message "504"

/-- `DEFAULT_RETRY_CONFIG`. -/
def DEFAULT_RETRY_CONFIG : RetryConfigL :=
  { maxRetries := 3
    initialDelay := 1000
    backoffMultiplier := 2
    maxDelay := 30000
    useJitter := true
    isRetryable := defaultIsRetryable }

/-- Summary of one `withRetry` run. -/
structure RetryTrace (α : Type) where
  result : Except Err α
  calls : Nat
  delays : List ℚ

/-- The delay slept before the retry that follows failed attempt
`attempt`: `min(initialDelay * backoffMultiplier^attempt, maxDelay)`,
scaled by `0.5 + Math.random() * 0.5` when jitter is enabled. -/
def computeDelay (cfg : RetryConfigL) (rand : Nat → ℚ) (attempt : Nat) : ℚ :=
  let baseDelay := min (cfg.initialDelay * cfg.backoffMultiplier ^ attempt)
    cfg.maxDelay
  if cfg.useJitter then baseDelay * (1/2 + rand attempt * (1/2)) else baseDelay

/-- The `while (attempt <= maxRetries)` loop of `withRetry`, from a given
`attempt`; `remaining = maxRetries - attempt` counts the retries still
allowed (`remaining = 0` is the `attempt >= maxRetries` break). -/
def withRetryGo (cfg : RetryConfigL) (fn : Nat → Except Err α)
    (rand : Nat → ℚ) : Nat → Nat → RetryTrace α
  | attempt, 0 =>
    match fn attempt with
    | .ok v => ⟨.ok v, 1, []⟩
    | .error e => ⟨.error e, 1, []⟩
  | attempt, remaining + 1 =>
    match fn attempt with
    | .ok v => ⟨.ok v, 1, []⟩
    | .error e =>
      if cfg.isRetryable e then
        let d := computeDelay cfg rand attempt
        let t := withRetryGo cfg fn rand (attempt + 1) remaining
        ⟨t.result, t.calls + 1, d :: t.delays⟩
      else
        ⟨.error e, 1, []⟩

/-- `withRetry(fn, config)`: the loop starts at `attempt = 0`. -/
def withRetryL (cfg : RetryConfigL) (fn : Nat → Except Err α)
    (rand : Nat → ℚ) : RetryTrace α :=
  withRetryGo cfg fn rand 0 cfg.maxRetries

/-! ## The Google API client (src/api/google-calendar-api.ts)

`requestUrl` calls are modelled by a `transport` list: each HTTP request
issued consumes the next `HttpOutcome`. A run records its result, the
final credentials (the class mutates `this.credentials` in place), the
log of issued requests, the unconsumed transport, and the arguments of
every `onTokensUpdated` callback invocation. -/

/-- `GoogleCalendarCredentials`. -/
structure Creds where
  clientId : String
  clientSecret : String
  accessToken : Option String
  refreshToken : Option String
deriving DecidableEq, Repr

/-- A task list entry of a `users/@me/lists` response. -/
structure TaskListInfo where
  id : Option String
  title : Option String
deriving DecidableEq, Repr

/-- A link attached to a task. -/
structure TaskLink where
  linkType : String
  description : String
  link : String
deriving DecidableEq, Repr

/-- A task object (`TaskItem`); `due` is the parsed `new Date(task.due)`
instant in milliseconds, `none` when the task has no due value. The
`parent`/`position`/`links` fields reach the code through the interface's
index signature. -/
structure TaskItem where
  id : Option String
  title : Option String
  notes : Option String
  status : Option String
  due : Option Int
  completed : Option String
  parent : Option String
  position : Option String
  links : Option (List TaskLink)
deriving DecidableEq, Repr

/-- The `start`/`end` field of an event. -/
structure EventTime where
  dateTime : Option String
  date : Option String
  timeZone : Option String
deriving DecidableEq, Repr

/-- An event attendee. -/
structure Attendee where
  email : String
  displayName : Option String
  responseStatus : Option String
deriving DecidableEq, Repr

/-- An event object (`CalendarEvent` of the API layer). -/
structure EventItem where
  id : Option String
  summary : Option String
  description : Option String
  start : Option EventTime
  eend : Option EventTime
  location : Option String
  attendees : Option (List Attendee)
  recurrence : Option (List String)
  status : Option String
deriving DecidableEq, Repr

/-- The JSON bodies of the responses the code inspects. Field access on a
variant that lacks the field yields `none`/`[]`, mirroring JavaScript
`undefined` propagation. -/
inductive RespVal where
  /-- a token-endpoint response body. -/
  | tokens (access_token : Option String) (refresh_token : Option String)
  /-- a `users/@me/lists` response body. -/
  | taskListsV (items : Option (List TaskListInfo))
  /-- a tasks-collection response body. -/
  | tasksV (items : Option (List TaskItem))
  /-- an events-collection response body. -/
  | eventsV (items : Option (List EventItem))
  /-- any other payload, opaque to the code. -/
  | rawV (tag : String)
deriving DecidableEq, Repr

/-- `json.access_token`. -/
def RespVal.access_tokenF : RespVal → Option String
  | .tokens a _ => a
  | _ => none

/-- `json.refresh_token`. -/
def RespVal.refresh_tokenF : RespVal → Option String
  | .tokens _ r => r
  | _ => none

/-- `response.items || []` on a task-lists response. -/
def RespVal.taskListItemsF : RespVal → List TaskListInfo
  | .taskListsV (some l) => l
  | _ => []

/-- `response.items || []` on a tasks response. -/
def RespVal.taskItemsF : RespVal → List TaskItem
  | .tasksV (some l) => l
  | _ => []

/-- The outcome of one `requestUrl` call. -/
inductive HttpOutcome where
  | ok (json : RespVal)
  | err (e : Err)

/-- The `Except` view of an outcome: how `await requestUrl(...)` either
returns `response.json` or throws. -/
def HttpOutcome.toExcept : HttpOutcome → Except Err RespVal
  | .ok v => .ok v
  | .err e => .error e

/-- A record of one issued HTTP request. -/
structure ReqRec where
  url : String
  method : String
  bearer : Option String
  body : Option String
deriving DecidableEq, Repr

/-- The Google OAuth token endpoint. -/
def TOKEN_URL : String := "https://oauth2.googleapis.com/token"

/-- The form body of a refresh-token exchange. -/
def refreshBody (c : Creds) (rt : String) : String :=
  "client_id=" ++ c.clientId ++ "&client_secret=" ++ c.clientSecret ++
    "&refresh_token=" ++ rt ++ "&grant_type=refresh_token"

/-- Result of a run of an API-layer method. -/
structure ApiRun (α : Type) where
  result : Except Err α
  creds : Creds
  requests : List ReqRec
  remaining : List HttpOutcome
  notified : List RespVal

/-- Pop the next transport outcome; an exhausted transport behaves like a
rejected request (theorems always supply enough outcomes). -/
def popOutcome : List HttpOutcome → HttpOutcome × List HttpOutcome
  | [] => (.err (.error "transport exhausted"), [])
  | o :: rest => (o, rest)

/-- `GoogleCalendarAPI.refreshAccessToken` (lines 120–153): requires a
refresh token, POSTs to the token endpoint, and on a response whose body
carries an `access_token` replaces `credentials.accessToken` in place and
invokes `onTokensUpdated` with the body. The stored refresh token is not
written. Failures propagate. -/
def refreshAccessToken (c : Creds) (tr : List HttpOutcome) : ApiRun Unit :=
  if ¬ jsTruthy c.refreshToken then
    ⟨.error (.error "No refresh token available"), c, [], tr, []⟩
  else
    let rt := jsOr c.refreshToken ""
    let req : ReqRec := ⟨TOKEN_URL, "POST", none, some (refreshBody c rt)⟩
    let (o, tr') := popOutcome tr
    match o with
    | .ok tokens =>
      if jsTruthy tokens.access_tokenF then
        ⟨.ok (), { c with accessToken := tokens.access_tokenF }, [req], tr',
          [tokens]⟩
      else ⟨.ok (), c, [req], tr', []⟩
    | .err e => ⟨.error e, c, [req], tr', []⟩

/-- `GoogleCalendarAPI.makeRequest` (lines 67–118): requires an access
token, issues the request with a bearer header; a rejection with
`status === 401` triggers one `refreshAccessToken` and one retry of the
same request (same url/method/body) with the then-current token, whose
outcome is returned as-is; any other rejection is rethrown. -/
def makeRequest (c : Creds) (url method : String) (body : Option String)
    (tr : List HttpOutcome) : ApiRun RespVal :=
  if ¬ jsTruthy c.accessToken then
    ⟨.error (.error "No access token available"), c, [], tr, []⟩
  else
    let req1 : ReqRec := ⟨url, method, c.accessToken, body⟩
    let (o, tr1) := popOutcome tr
    match o with
    | .ok v => ⟨.ok v, c, [req1], tr1, []⟩
    | .err e =>
      if e.statusF = some 401 then
        let ref := refreshAccessToken c tr1
        match ref.result with
        | .error re =>
          ⟨.error re, ref.creds, req1 :: ref.requests, ref.remaining,
            ref.notified⟩
        | .ok _ =>
          let req2 : ReqRec := ⟨url, method, ref.creds.accessToken, body⟩
          let (o2, tr2) := popOutcome ref.remaining
          ⟨o2.toExcept, ref.creds, req1 :: ref.requests ++ [req2], tr2,
            ref.notified⟩
      else
        ⟨.error e, c, [req1], tr1, []⟩

/-- The credentials after a successful refresh whose response body is
`v`: the access token is replaced when the body carries a truthy one
(`if (tokens.access_token)`); nothing else is written. -/
def refreshedCreds (c : Creds) (v : RespVal) : Creds :=
  if jsTruthy v.access_tokenF then { c with accessToken := v.access_tokenF }
  else c

/-! ### Date arithmetic for the fetch wrappers

Dates are modelled on an idealised calendar: the date string for day `d`
parses to instant `d * 86400000` ms, `setHours(0,0,0,0)` maps an instant
to the start of its day and `setHours(23,59,59,999)` to its last
millisecond, and `setDate(getDate() - 365)` subtracts exactly 365 days. -/

/-- Milliseconds per day. -/
def MS_PER_DAY : Int := 86400000

/-- The instant at which day `d` starts (`setHours(0,0,0,0)`). -/
def startOfDayMs (d : Int) : Int := d * MS_PER_DAY

/-- The last millisecond of day `d` (`setHours(23,59,59,999)`). -/
def endOfDayMs (d : Int) : Int := d * MS_PER_DAY + 86399999

/-- The task filter of `getTasksForDate`/`getTasksForDateRange`: a task
with no `due` passes; otherwise its due instant must lie in `[lo, hi]`. -/
def taskDueWithin (lo hi : Int) (t : TaskItem) : Bool :=
  match t.due with
  | none => true
  | some d => decide (lo ≤ d) && decide (d ≤ hi)

/-- The per-list fan-out shared by `getTasksForDate` and
`getTasksForDateRange` (lines 203–224 and 312–333): a list with a falsy
`id` yields `[]`; a list whose fetch rejects yields `[]` (partial-result
tolerance); otherwise `response.items || []` filtered by the due-date
window. `perList` gives each list's `makeRequest` outcome (the fan-out
runs concurrently, so each list's fetch is modelled independently). -/
def tasksFromLists (taskLists : List TaskListInfo)
    (perList : String → Except Err RespVal) (lo hi : Int) : List TaskItem :=
  (taskLists.map fun l =>
    if ¬ jsTruthy l.id then []
    else
      match perList (jsOr l.id "") with
      | .ok resp => resp.taskItemsF.filter (taskDueWithin lo hi)
      | .error _ => []).flatten

/-- `GoogleCalendarAPI.getTasksForDateRange` (lines 295–345): fetches the
task lists through `makeRequest`, fans out, and filters each list's tasks
to `[startOfDay(startDate), endOfDay(endDate)]`; every error is caught
and surfaced as `null` (`none`). -/
def getTasksForDateRangeApi (c : Creds) (startDay endDay : Int)
    (tr : List HttpOutcome) (perList : String → Except Err RespVal) :
    ApiRun (Option (List TaskItem)) :=
  if ¬ (jsTruthy (some c.clientId) && jsTruthy (some c.clientSecret)) then
    ⟨.ok none, c, [], tr, []⟩
  else
    let listsUrl := "https://www.googleapis.com/tasks/v1/users/@me/lists"
    let run := makeRequest c listsUrl "GET" none tr
    match run.result with
    | .error _ => ⟨.ok none, run.creds, run.requests, run.remaining,
        run.notified⟩
    | .ok resp =>
      let items := tasksFromLists resp.taskListItemsF perList
        (startOfDayMs startDay) (endOfDayMs endDay)
      ⟨.ok (some items), run.creds, run.requests, run.remaining, run.notified⟩

/-- `GoogleCalendarAPI.getTasksForDate` (lines 186–236): same fan-out,
but the window is `[endOfDay(date) - 365 days, endOfDay(date)]`
(`oneYearAgo.setDate(targetDate.getDate() - 365)`). -/
def getTasksForDateApi (c : Creds) (day : Int) (tr : List HttpOutcome)
    (perList : String → Except Err RespVal) :
    ApiRun (Option (List TaskItem)) :=
  if ¬ (jsTruthy (some c.clientId) && jsTruthy (some c.clientSecret)) then
    ⟨.ok none, c, [], tr, []⟩
  else
    let listsUrl := "https://www.googleapis.com/tasks/v1/users/@me/lists"
    let run := makeRequest c listsUrl "GET" none tr
    match run.result with
    | .error _ => ⟨.ok none, run.creds, run.requests, run.remaining,
        run.notified⟩
    | .ok resp =>
      let items := tasksFromLists resp.taskListItemsF perList
        (endOfDayMs day - 365 * MS_PER_DAY) (endOfDayMs day)
      ⟨.ok (some items), run.creds, run.requests, run.remaining, run.notified⟩

/-- `GoogleCalendarAPI.getEventsForDate` (lines 155–184): builds the
events query for `[startOfDay(date), endOfDay(date)]` and runs it through
`makeRequest`; every error is caught and surfaced as `null` (`none`). -/
def getEventsForDateApi (c : Creds) (day : Int) (tr : List HttpOutcome) :
    ApiRun (Option RespVal) :=
  if ¬ (jsTruthy (some c.clientId) && jsTruthy (some c.clientSecret)) then
    ⟨.ok none, c, [], tr, []⟩
  else
    let url := "https://www.googleapis.com/calendar/v3/calendars/primary/events?timeMin="
      ++ toString (startOfDayMs day) ++ "&timeMax=" ++ toString (endOfDayMs day)
    let run := makeRequest c url "GET" none tr
    match run.result with
    | .error _ => ⟨.ok none, run.creds, run.requests, run.remaining,
        run.notified⟩
    | .ok v => ⟨.ok (some v), run.creds, run.requests, run.remaining,
        run.notified⟩

/-- `GoogleCalendarAPI.getEventsForDateRange` (lines 254–279): builds the
events query for `[startOfDay(startDate), endOfDay(endDate)]` and runs
it through `makeRequest`; every error is caught and surfaced as `null`
(`none`). -/
def getEventsForDateRangeApi (c : Creds) (startDay endDay : Int)
    (tr : List HttpOutcome) : ApiRun (Option RespVal) :=
  if ¬ (jsTruthy (some c.clientId) && jsTruthy (some c.clientSecret)) then
    ⟨.ok none, c, [], tr, []⟩
  else
    let url := "https://www.googleapis.com/calendar/v3/calendars/primary/events?timeMin="
      ++ toString (startOfDayMs startDay) ++ "&timeMax="
      ++ toString (endOfDayMs endDay)
    let run := makeRequest c url "GET" none tr
    match run.result with
    | .error _ => ⟨.ok none, run.creds, run.requests, run.remaining,
        run.notified⟩
    | .ok v => ⟨.ok (some v), run.creds, run.requests, run.remaining,
        run.notified⟩

/-- `GoogleCalendarAPI.getTasks` (lines 281–293): fetches the default
task list; every error is caught and surfaced as `null` (`none`). -/
def getTasksApi (c : Creds) (tr : List HttpOutcome) :
    ApiRun (Option RespVal) :=
  if ¬ (jsTruthy (some c.clientId) && jsTruthy (some c.clientSecret)) then
    ⟨.ok none, c, [], tr, []⟩
  else
    let url := "https://www.googleapis.com/tasks/v1/lists/@default/tasks?maxResults=100"
    let run := makeRequest c url "GET" none tr
    match run.result with
    | .error _ => ⟨.ok none, run.creds, run.requests, run.remaining,
        run.notified⟩
    | .ok v => ⟨.ok (some v), run.creds, run.requests, run.remaining,
        run.notified⟩

/-- `GoogleCalendarProvider.isConfigured` (lines 114–116):
`!!credentials.clientId && !!credentials.clientSecret`. -/
def isConfigured (c : Creds) : Bool :=
  jsTruthy (some c.clientId) && jsTruthy (some c.clientSecret)

/-! ## The facades (src/services/google-tasks-facade.ts and the
calendar facade)

Both facades keep a `Map<string, {data, timestamp}>` cache with a 60 s
TTL. The `Map` is modelled as an association list with `Map.set`
replace-in-place semantics; `Date.now()` is an explicit `now : Nat`
parameter. The underlying API call wrapped by `withRetry` is an oracle
(`api`/`fn`), exactly as in the `withRetry` model; a run reports the
number of oracle invocations so "exactly one underlying API call" is a
statement about that count. -/

/-- `CACHE_TTL` (60 000 ms) of both facades. -/
def CACHE_TTL : Nat := 60000

/-- A cache entry `{data, timestamp}`. -/
structure CacheEntry (α : Type) where
  data : α
  timestamp : Nat
deriving DecidableEq, Repr

/-- The cache `Map`, as an association list. -/
abbrev CacheMap (α : Type) := List (String × CacheEntry α)

/-- `Map.get`. -/
def mapGet (m : CacheMap α) (k : String) : Option (CacheEntry α) :=
  (m.find? fun p => decide (p.1 = k)).map (·.2)

/-- `Map.set`: replace in place, else append. -/
def mapSet : CacheMap α → String → CacheEntry α → CacheMap α
  | [], k, v => [(k, v)]
  | (k', v') :: rest, k, v =>
    if k' = k then (k, v) :: rest else (k', v') :: mapSet rest k v

/-- `Map.delete`. -/
def mapDelete (m : CacheMap α) (k : String) : CacheMap α :=
  m.filter fun p => decide (p.1 ≠ k)

/-- `getFromCache` of both facades: a missing key yields `null`; an entry
with `Date.now() - timestamp > CACHE_TTL` is deleted and yields `null`;
otherwise the entry's data is returned. -/
def getFromCache (cache : CacheMap α) (now : Nat) (key : String) :
    Option α × CacheMap α :=
  match mapGet cache key with
  | none => (none, cache)
  | some e =>
    if now - e.timestamp > CACHE_TTL then (none, mapDelete cache key)
    else (some e.data, cache)

/-- The facade's normalized `Task` shape. -/
structure TaskN where
  id : String
  title : String
  notes : Option String
  status : String
  due : Option Int
  completed : Option String
  parent : Option String
  position : Option String
  links : Option (List TaskLink)
deriving DecidableEq, Repr

/-- `GoogleTasksFacade.transformTask`. -/
def transformTask (t : TaskItem) : TaskN :=
  { id := jsOr t.id ""
    title := jsOr t.title "Untitled"
    notes := t.notes
    status := jsOr t.status "needsAction"
    due := t.due
    completed := t.completed
    parent := t.parent
    position := t.position
    links := t.links }

/-- The facade's normalized `CalendarEvent` shape. -/
structure CalEventN where
  id : String
  summary : String
  description : Option String
  start : EventTime
  eend : EventTime
  location : Option String
  attendees : Option (List Attendee)
  recurrence : Option (List String)
  status : Option String
deriving DecidableEq, Repr

/-- `GoogleCalendarFacade.transformEvent` (`event.start || {}` defaults a
missing time object to `{}`). -/
def transformEvent (e : EventItem) : CalEventN :=
  { id := jsOr e.id ""
    summary := jsOr e.summary "Untitled"
    description := e.description
    start := e.start.getD ⟨none, none, none⟩
    eend := e.eend.getD ⟨none, none, none⟩
    location := e.location
    attendees := e.attendees
    recurrence := e.recurrence
    status := e.status }

/-- State of a `GoogleTasksFacade` instance. -/
structure TasksFacadeState where
  cache : CacheMap (List TaskN)
  retryConfig : RetryConfigL

/-- State of a `GoogleCalendarFacade` instance. -/
structure EventsFacadeState where
  cache : CacheMap (List CalEventN)
  retryConfig : RetryConfigL

/-- `FetchTasksOptions`; the date strings are modelled as day numbers
(`none` = absent; a present date string is non-empty, hence truthy). -/
structure FetchTasksOptionsL where
  startDate : Option Int
  endDate : Option Int
  taskListId : Option String

/-- `GoogleTasksFacade.getCacheKey`:
`` `${startDate || 'all'}-${endDate || 'all'}-${taskListId || 'default'}` ``. -/
def tasksCacheKey (o : FetchTasksOptionsL) : String :=
  (match o.startDate with | some d => toString d | none => "all") ++ "-" ++
  (match o.endDate with | some d => toString d | none => "all") ++ "-" ++
  jsOr o.taskListId "default"

/-- `FetchEventsOptions` (both dates are required). -/
structure FetchEventsOptionsL where
  startDate : Int
  endDate : Int
  calendarId : Option String

/-- `GoogleCalendarFacade.getCacheKey`:
`` `${startDate}-${endDate}-${calendarId || 'primary'}` ``. -/
def eventsCacheKey (o : FetchEventsOptionsL) : String :=
  toString o.startDate ++ "-" ++ toString o.endDate ++ "-" ++
  jsOr o.calendarId "primary"

/-- Result of a facade operation run. -/
structure FacadeRun (σ α : Type) where
  result : Except Err α
  state : σ
  apiCalls : Nat

/-- `GoogleTasksFacade.fetchTasks` (lines 74–120): cache lookup first; on
a miss, the branch on `options.startDate`/`endDate` picks the API call
(both: range endpoint; start only: single-date endpoint; neither: the
unimplemented fetch-all yields `[]` with no API call), runs it through
`withRetry`, transforms `result?.tasks?.items || []`, caches, and
returns; a failure is wrapped into a `ServiceError`. The API call is the
oracle `api` (its `none` models a `null` result). -/
def fetchTasksF (st : TasksFacadeState) (now : Nat) (o : FetchTasksOptionsL)
    (api : Nat → Except Err (Option (List TaskItem))) (rand : Nat → ℚ) :
    FacadeRun TasksFacadeState (List TaskN) :=
  let key := tasksCacheKey o
  let (hit, cache1) := getFromCache st.cache now key
  match hit with
  | some data => ⟨.ok data, { st with cache := cache1 }, 0⟩
  | none =>
    match o.startDate, o.endDate with
    | some _, some _ =>
      let t := withRetryL st.retryConfig api rand
      match t.result with
      | .ok v =>
        let tasks := (v.getD []).map transformTask
        ⟨.ok tasks, { st with cache := mapSet cache1 key ⟨tasks, now⟩ },
          t.calls⟩
      | .error e =>
        ⟨.error (.serviceError "Failed to fetch tasks" "GoogleTasksFacade"
          (some e)), { st with cache := cache1 }, t.calls⟩
    | some _, none =>
      let t := withRetryL st.retryConfig api rand
      match t.result with
      | .ok v =>
        let tasks := (v.getD []).map transformTask
        ⟨.ok tasks, { st with cache := mapSet cache1 key ⟨tasks, now⟩ },
          t.calls⟩
      | .error e =>
        ⟨.error (.serviceError "Failed to fetch tasks" "GoogleTasksFacade"
          (some e)), { st with cache := cache1 }, t.calls⟩
    | none, _ =>
      ⟨.ok [], { st with cache := mapSet cache1 key ⟨[], now⟩ }, 0⟩

/-- `GoogleCalendarFacade.fetchEvents` (lines 81–113): cache lookup, then
`withRetry` around the range endpoint, transforming
`result?.events?.items || []`. -/
def fetchEventsF (st : EventsFacadeState) (now : Nat)
    (o : FetchEventsOptionsL)
    (api : Nat → Except Err (Option (List EventItem))) (rand : Nat → ℚ) :
    FacadeRun EventsFacadeState (List CalEventN) :=
  let key := eventsCacheKey o
  let (hit, cache1) := getFromCache st.cache now key
  match hit with
  | some data => ⟨.ok data, { st with cache := cache1 }, 0⟩
  | none =>
    let t := withRetryL st.retryConfig api rand
    match t.result with
    | .ok v =>
      let events := (v.getD []).map transformEvent
      ⟨.ok events, { st with cache := mapSet cache1 key ⟨events, now⟩ },
        t.calls⟩
    | .error e =>
      ⟨.error (.serviceError "Failed to fetch events" "GoogleCalendarFacade"
        (some e)), { st with cache := cache1 }, t.calls⟩

/-! ### Facade mutations

Each mutation runs the corresponding raw API call (the oracle `fn`)
through `withRetry`; on success it calls `clearCache()` — `this.cache.clear()`,
the whole map — and returns the transformed result; on failure it wraps
the error into a `ServiceError` and leaves the cache untouched. -/

/-- `GoogleTasksFacade.createTask` (lines 135–163). -/
def createTaskF (st : TasksFacadeState) (fn : Nat → Except Err TaskItem)
    (rand : Nat → ℚ) : Except Err TaskN × TasksFacadeState :=
  match (withRetryL st.retryConfig fn rand).result with
  | .ok v => (.ok (transformTask v), { st with cache := [] })
  | .error e =>
    (.error (.serviceError "Failed to create task" "GoogleTasksFacade"
      (some e)), st)

/-- `GoogleTasksFacade.updateTask` (lines 168–201). -/
def updateTaskF (st : TasksFacadeState) (fn : Nat → Except Err TaskItem)
    (rand : Nat → ℚ) : Except Err TaskN × TasksFacadeState :=
  match (withRetryL st.retryConfig fn rand).result with
  | .ok v => (.ok (transformTask v), { st with cache := [] })
  | .error e =>
    (.error (.serviceError "Failed to update task" "GoogleTasksFacade"
      (some e)), st)

/-- `GoogleTasksFacade.deleteTask` (lines 206–224). -/
def deleteTaskF (st : TasksFacadeState) (fn : Nat → Except Err TaskItem)
    (rand : Nat → ℚ) : Except Err Unit × TasksFacadeState :=
  match (withRetryL st.retryConfig fn rand).result with
  | .ok _ => (.ok (), { st with cache := [] })
  | .error e =>
    (.error (.serviceError "Failed to delete task" "GoogleTasksFacade"
      (some e)), st)

/-- `GoogleTasksFacade.completeTask` (lines 229–234): delegates to
`updateTask` with `status = 'completed'` and a fresh `completed`
timestamp (the update payload is part of the oracle's call). -/
def completeTaskF (st : TasksFacadeState) (fn : Nat → Except Err TaskItem)
    (rand : Nat → ℚ) : Except Err TaskN × TasksFacadeState :=
  updateTaskF st fn rand

/-- `GoogleCalendarFacade.createEvent` (lines 128–159). -/
def createEventF (st : EventsFacadeState) (fn : Nat → Except Err EventItem)
    (rand : Nat → ℚ) : Except Err CalEventN × EventsFacadeState :=
  match (withRetryL st.retryConfig fn rand).result with
  | .ok v => (.ok (transformEvent v), { st with cache := [] })
  | .error e =>
    (.error (.serviceError "Failed to create event" "GoogleCalendarFacade"
      (some e)), st)

/-- `GoogleCalendarFacade.updateEvent` (lines 164–200). -/
def updateEventF (st : EventsFacadeState) (fn : Nat → Except Err EventItem)
    (rand : Nat → ℚ) : Except Err CalEventN × EventsFacadeState :=
  match (withRetryL st.retryConfig fn rand).result with
  | .ok v => (.ok (transformEvent v), { st with cache := [] })
  | .error e =>
    (.error (.serviceError "Failed to update event" "GoogleCalendarFacade"
      (some e)), st)

/-- `GoogleCalendarFacade.deleteEvent` (lines 205–223). -/
def deleteEventF (st : EventsFacadeState) (fn : Nat → Except Err EventItem)
    (rand : Nat → ℚ) : Except Err Unit × EventsFacadeState :=
  match (withRetryL st.retryConfig fn rand).result with
  | .ok _ => (.ok (), { st with cache := [] })
  | .error e =>
    (.error (.serviceError "Failed to delete event" "GoogleCalendarFacade"
      (some e)), st)

/-! ## The OAuth callback (src/auth/oauth-server.ts)

The local listener is a one-bit resource (`serverOpen`). `handleCallback`
settles the promise returned by `startOAuthFlow`; the token-exchange POST
outcome is the oracle `exchange`. A run counts how many times
`closeServer` actually closed the listener (`closeServer` is guarded by
`if (this.server)`, so a second call is a no-op). -/

/-- The query parameters of the `/callback` request. -/
structure OAuthQuery where
  code : Option String
  error : Option String

/-- Listener state of an `OAuthServer`. -/
structure OAuthSrvState where
  serverOpen : Bool
deriving DecidableEq, Repr

/-- How the `startOAuthFlow` promise settles. -/
inductive FlowOutcome where
  | resolved (tokens : RespVal)
  | rejected (e : Err)

/-- Result of a `handleCallback` run. -/
structure CallbackRun where
  outcome : FlowOutcome
  state : OAuthSrvState
  closes : Nat

/-- `OAuthServer.closeServer` (lines 148–153): closes the listener when
it is open, does nothing otherwise. The second component counts actual
closes. -/
def closeServerStep (st : OAuthSrvState) : OAuthSrvState × Nat :=
  if st.serverOpen then (⟨false⟩, 1) else (st, 0)

/-- `OAuthServer.handleCallback` (lines 52–82): an `error` query
parameter rejects; a `code` closes the listener and exchanges the code
(resolving or rejecting with the exchange outcome); neither rejects with
`"No authorization code received"`. Every branch calls `closeServer`
before settling. -/
def handleCallback (st : OAuthSrvState) (q : OAuthQuery)
    (exchange : Except Err RespVal) : CallbackRun :=
  if jsTruthy q.error then
    let (st1, n) := closeServerStep st
    ⟨.rejected (.error ("Authorization failed: " ++ jsOr q.error "")),
      st1, n⟩
  else if jsTruthy q.code then
    let (st1, n) := closeServerStep st
    match exchange with
    | .ok t => ⟨.resolved t, st1, n⟩
    | .error e => ⟨.rejected e, st1, n⟩
  else
    let (st1, n) := closeServerStep st
    ⟨.rejected (.error "No authorization code received"), st1, n⟩

/-- The property claimed of the fetch operations when no access token is
present: that the operation itself fails (rejects) with the
`'No access token available'` error. Stated from the spec's words, to be
compared with what the code does. -/
def fetchFailsWithNoToken (r : ApiRun (Option RespVal)) : Prop :=
  ∃ e, r.result = Except.error e ∧ e.messageF = "No access token available"

/-! ### Concrete fixtures used by witness theorems -/

/-- A retry configuration with two retries, no jitter, everything
retryable. -/
def cfgNoJitter : RetryConfigL := ⟨2, 1000, 2, 30000, false, fun _ => true⟩

/-- A retry configuration with one retry, jitter on, everything
retryable. -/
def cfgJitter : RetryConfigL := ⟨1, 1000, 2, 30000, true, fun _ => true⟩

/-- A concrete task used in witnesses. -/
def sampleTaskItem : TaskItem :=
  ⟨some "t1", some "Buy milk", none, some "needsAction", none, none, none,
    none, none⟩

/-- A concrete event used in witnesses. -/
def sampleEventItem : EventItem :=
  ⟨some "e1", some "Standup", none, none, none, none, none, none, none⟩

/-- A task due at the last millisecond of day 0 — strictly before the
start of day 1. -/
def lateTask : TaskItem :=
  ⟨some "t9", some "Old task", none, some "needsAction", some 86399999,
    none, none, none, none⟩

/-! ### Unfolding lemmas for `withRetryGo` -/

theorem withRetryGo_zero_ok {α : Type} (cfg : RetryConfigL)
    (fn : Nat → Except Err α) (rand : Nat → ℚ) (attempt : Nat) (v : α)
    (h : fn attempt = .ok v) :
    withRetryGo cfg fn rand attempt 0 = ⟨.ok v, 1, []⟩ := by
  unfold withRetryGo
  rw [h]

theorem withRetryGo_zero_err {α : Type} (cfg : RetryConfigL)
    (fn : Nat → Except Err α) (rand : Nat → ℚ) (attempt : Nat) (e : Err)
    (h : fn attempt = .error e) :
    withRetryGo cfg fn rand attempt 0 = ⟨.error e, 1, []⟩ := by
  unfold withRetryGo
  rw [h]

theorem withRetryGo_succ_ok {α : Type} (cfg : RetryConfigL)
    (fn : Nat → Except Err α) (rand : Nat → ℚ) (attempt r : Nat) (v : α)
    (h : fn attempt = .ok v) :
    withRetryGo cfg fn rand attempt (r + 1) = ⟨.ok v, 1, []⟩ := by
  unfold withRetryGo
  rw [h]

theorem withRetryGo_succ_retry {α : Type} (cfg : RetryConfigL)
    (fn : Nat → Except Err α) (rand : Nat → ℚ) (attempt r : Nat) (e : Err)
    (h : fn attempt = .error e) (hret : cfg.isRetryable e = true) :
    withRetryGo cfg fn rand attempt (r + 1) =
      ⟨(withRetryGo cfg fn rand (attempt + 1) r).result,
       (withRetryGo cfg fn rand (attempt + 1) r).calls + 1,
       computeDelay cfg rand attempt ::
         (withRetryGo cfg fn rand (attempt + 1) r).delays⟩ := by
  conv_lhs => unfold withRetryGo
  rw [h]
  simp [hret]

theorem withRetryGo_succ_stop {α : Type} (cfg : RetryConfigL)
    (fn : Nat → Except Err α) (rand : Nat → ℚ) (attempt r : Nat) (e : Err)
    (h : fn attempt = .error e) (hret : cfg.isRetryable e = false) :
    withRetryGo cfg fn rand attempt (r + 1) = ⟨.error e, 1, []⟩ := by
  conv_lhs => unfold withRetryGo
  rw [h]
  simp [hret]

/-! ### Behaviour of the retry loop -/

theorem withRetryGo_always_fails (cfg : RetryConfigL)
    (fn : Nat → Except Err α) (rand : Nat → ℚ) (es : Nat → Err)
    (hf : ∀ i, fn i = .error (es i))
    (hr : ∀ i, cfg.isRetryable (es i) = true) :
    ∀ attempt remaining,
      (withRetryGo cfg fn rand attempt remaining).calls = remaining + 1 ∧
      (withRetryGo cfg fn rand attempt remaining).result =
        .error (es (attempt + remaining)) := by
  intro attempt remaining
  induction remaining generalizing attempt with
  | zero =>
    rw [withRetryGo_zero_err cfg fn rand attempt (es attempt) (hf attempt)]
    simp
  | succ r ih =>
    rw [withRetryGo_succ_retry cfg fn rand attempt r (es attempt)
      (hf attempt) (hr attempt)]
    obtain ⟨ihc, ihr⟩ := ih (attempt + 1)
    refine ⟨by simp [ihc], ?_⟩
    have harith : attempt + 1 + r = attempt + (r + 1) := by omega
    simpa [harith] using ihr

theorem withRetryGo_delays (cfg : RetryConfigL)
    (fn : Nat → Except Err α) (rand : Nat → ℚ) :
    ∀ attempt remaining j d,
      (withRetryGo cfg fn rand attempt remaining).delays.get? j = some d →
      d = computeDelay cfg rand (attempt + j) := by
  intro attempt remaining
  induction remaining generalizing attempt with
  | zero =>
    intro j d h
    cases hfn : fn attempt with
    | ok v => rw [withRetryGo_zero_ok cfg fn rand attempt v hfn] at h; simp at h
    | error e =>
      rw [withRetryGo_zero_err cfg fn rand attempt e hfn] at h; simp at h
  | succ r ih =>
    intro j d h
    cases hfn : fn attempt with
    | ok v => rw [withRetryGo_succ_ok cfg fn rand attempt r v hfn] at h; simp at h
    | error e =>
      cases hret : cfg.isRetryable e with
      | false =>
        rw [withRetryGo_succ_stop cfg fn rand attempt r e hfn hret] at h
        simp at h
      | true =>
        rw [withRetryGo_succ_retry cfg fn rand attempt r e hfn hret] at h
        cases j with
        | zero =>
          simp at h
          rw [Nat.add_zero]
          exact h.symm
        | succ j' =>
          simp only [List.get?_cons_succ] at h
          have := ih (attempt + 1) j' d h
          rw [this]
          congr 1
          omega

/-! ## Claim C1 -/

/-- C1: for every `RetryConfig` with `maxRetries = n` and every function
that on every invocation fails with an error satisfying the config's
`isRetryable` predicate, `withRetry(fn, config)` invokes `fn` exactly
`n + 1` times and then rethrows the last error (attempts are 0-indexed:
the last invocation is attempt `n`). -/
theorem claim_C1_withRetry_exhausts {α : Type} (cfg : RetryConfigL)
    (fn : Nat → Except Err α) (rand : Nat → ℚ) (es : Nat → Err)
    (hf : ∀ i, fn i = .error (es i))
    (hr : ∀ i, cfg.isRetryable (es i) = true) :
    (withRetryL cfg fn rand).calls = cfg.maxRetries + 1 ∧
    (withRetryL cfg fn rand).result = .error (es cfg.maxRetries) := by
  have h := withRetryGo_always_fails cfg fn rand es hf hr 0 cfg.maxRetries
  simpa [withRetryL] using h

/-- Witness for C1: with `maxRetries = 2` and a function failing with a
retryable error on every attempt, `withRetry` makes 3 calls and rethrows
the attempt-2 error. -/
theorem claim_C1_witness :
    (withRetryL cfgNoJitter
        (fun i => (.error (.error (toString i)) : Except Err Unit))
        (fun _ => 0)).calls = 3 ∧
      (withRetryL cfgNoJitter
        (fun i => (.error (.error (toString i)) : Except Err Unit))
        (fun _ => 0)).result = .error (.error "2") := by
  have h := claim_C1_withRetry_exhausts cfgNoJitter
    (fun i => (.error (.error (toString i)) : Except Err Unit))
    (fun _ => 0) (fun i => .error (toString i))
    (fun _ => rfl) (fun _ => rfl)
  simpa [cfgNoJitter] using h

/-! ## Claim C2 -/

/-- C2: in `withRetry`, the delay slept before the retry following
0-indexed failed attempt `i` equals
`min(initialDelay * backoffMultiplier^i, maxDelay)` when `useJitter` is
false, and equals that base delay multiplied by a jitter factor in the
closed interval `[0.5, 1.0]` when `useJitter` is true (given
`Math.random() ∈ [0, 1)`). -/
theorem claim_C2_backoff_delay {α : Type} (cfg : RetryConfigL)
    (fn : Nat → Except Err α) (rand : Nat → ℚ)
    (hrand : ∀ j, 0 ≤ rand j ∧ rand j < 1) (i : Nat) (d : ℚ)
    (hd : (withRetryL cfg fn rand).delays.get? i = some d) :
    (cfg.useJitter = false →
      d = min (cfg.initialDelay * cfg.backoffMultiplier ^ i) cfg.maxDelay) ∧
    (cfg.useJitter = true →
      ∃ f : ℚ, 1/2 ≤ f ∧ f ≤ 1 ∧
        d = min (cfg.initialDelay * cfg.backoffMultiplier ^ i)
          cfg.maxDelay * f) := by
  have h := withRetryGo_delays cfg fn rand 0 cfg.maxRetries i d hd
  rw [Nat.zero_add] at h
  constructor
  · intro hj
    rw [h]
    simp [computeDelay, hj]
  · intro hj
    refine ⟨1/2 + rand i * (1/2), ?_, ?_, ?_⟩
    · have := (hrand i).1
      linarith
    · have := (hrand i).2
      linarith
    · rw [h]
      simp [computeDelay, hj]

/-- Witness for C2: with jitter enabled, `Math.random() = 1/2` and an
always-failing retryable function, the delay before the first retry is
`1000 * 3/4 = 750` ms, i.e. the base delay times a factor in
`[0.5, 1.0]`. -/
theorem claim_C2_witness :
    (cfgJitter.useJitter = false →
      (750 : ℚ) = min (cfgJitter.initialDelay *
        cfgJitter.backoffMultiplier ^ 0) cfgJitter.maxDelay) ∧
    (cfgJitter.useJitter = true →
      ∃ f : ℚ, 1/2 ≤ f ∧ f ≤ 1 ∧
        (750 : ℚ) = min (cfgJitter.initialDelay *
          cfgJitter.backoffMultiplier ^ 0) cfgJitter.maxDelay * f) := by
  refine claim_C2_backoff_delay cfgJitter
    (fun i => (.error (.error (toString i)) : Except Err Unit))
    (fun _ => 1/2) (fun _ => by norm_num) 0 750 ?_
  show (withRetryGo cfgJitter _ _ 0 cfgJitter.maxRetries).delays.get? 0 = _
  norm_num [cfgJitter, withRetryGo, computeDelay]

/-! ## Claim C3 -/

/-- C3: for a `makeRequest` with an access token present whose first
response rejects with status 401 (and a refresh token present, with the
token-endpoint call succeeding): exactly one token refresh is performed,
the same request (same url, method, body) is re-sent exactly once with
the then-current access token, and the retried request's outcome — in
particular its error, if it fails again — is surfaced to the caller
as-is, with no further refresh or retry at this layer (exactly three
requests are issued in total). -/
theorem claim_C3_makeRequest_401_refresh_retry (c : Creds)
    (url method : String) (body : Option String) (e1 : Err) (v : RespVal)
    (o3 : HttpOutcome) (rest : List HttpOutcome)
    (hat : jsTruthy c.accessToken = true)
    (hrt : jsTruthy c.refreshToken = true)
    (h401 : e1.statusF = some 401) (hne : url ≠ TOKEN_URL) :
    (makeRequest c url method body
        (.err e1 :: .ok v :: o3 :: rest)).requests =
      [⟨url, method, c.accessToken, body⟩,
       ⟨TOKEN_URL, "POST", none,
         some (refreshBody c (jsOr c.refreshToken ""))⟩,
       ⟨url, method, (refreshedCreds c v).accessToken, body⟩] ∧
    (makeRequest c url method body
        (.err e1 :: .ok v :: o3 :: rest)).creds = refreshedCreds c v ∧
    (makeRequest c url method body
        (.err e1 :: .ok v :: o3 :: rest)).result = o3.toExcept ∧
    (makeRequest c url method body
        (.err e1 :: .ok v :: o3 :: rest)).remaining = rest ∧
    ((makeRequest c url method body
        (.err e1 :: .ok v :: o3 :: rest)).requests.countP
      fun r => decide (r.url = TOKEN_URL)) = 1 := by
  cases hv : jsTruthy v.access_tokenF with
  | true =>
    simp [makeRequest, hat, h401, refreshAccessToken, hrt, popOutcome, hv,
      refreshedCreds, List.countP_cons, hne]
  | false =>
    simp [makeRequest, hat, h401, refreshAccessToken, hrt, popOutcome, hv,
      refreshedCreds, List.countP_cons, hne]

/-- Witness for C3: a concrete 401, a successful refresh delivering a new
access token, and a retry that fails again with a 401; the retried
error surfaces as-is and exactly one refresh request was issued. -/
theorem claim_C3_witness :
    (makeRequest ⟨"id", "sec", some "AT0", some "RT"⟩ "u" "GET" none
        (.err (.httpError (some 401) "Unauthorized") ::
          .ok (.tokens (some "AT1") none) ::
          .err (.httpError (some 401) "Unauthorized again") :: [])).requests =
      [⟨"u", "GET", some "AT0", none⟩,
       ⟨TOKEN_URL, "POST", none,
         some (refreshBody ⟨"id", "sec", some "AT0", some "RT"⟩
           (jsOr (some "RT") ""))⟩,
       ⟨"u", "GET", (refreshedCreds ⟨"id", "sec", some "AT0", some "RT"⟩
         (.tokens (some "AT1") none)).accessToken, none⟩] ∧
    (makeRequest ⟨"id", "sec", some "AT0", some "RT"⟩ "u" "GET" none
        (.err (.httpError (some 401) "Unauthorized") ::
          .ok (.tokens (some "AT1") none) ::
          .err (.httpError (some 401) "Unauthorized again") :: [])).creds =
      refreshedCreds ⟨"id", "sec", some "AT0", some "RT"⟩
        (.tokens (some "AT1") none) ∧
    (makeRequest ⟨"id", "sec", some "AT0", some "RT"⟩ "u" "GET" none
        (.err (.httpError (some 401) "Unauthorized") ::
          .ok (.tokens (some "AT1") none) ::
          .err (.httpError (some 401) "Unauthorized again") :: [])).result =
      (HttpOutcome.err (.httpError (some 401) "Unauthorized again")).toExcept ∧
    (makeRequest ⟨"id", "sec", some "AT0", some "RT"⟩ "u" "GET" none
        (.err (.httpError (some 401) "Unauthorized") ::
          .ok (.tokens (some "AT1") none) ::
          .err (.httpError (some 401) "Unauthorized again") :: [])).remaining =
      [] ∧
    ((makeRequest ⟨"id", "sec", some "AT0", some "RT"⟩ "u" "GET" none
        (.err (.httpError (some 401) "Unauthorized") ::
          .ok (.tokens (some "AT1") none) ::
          .err (.httpError (some 401) "Unauthorized again") :: [])).requests.countP
      fun r => decide (r.url = TOKEN_URL)) = 1 :=
  claim_C3_makeRequest_401_refresh_retry ⟨"id", "sec", some "AT0", some "RT"⟩
    "u" "GET" none (.httpError (some 401) "Unauthorized")
    (.tokens (some "AT1") none)
    (.err (.httpError (some 401) "Unauthorized again")) []
    rfl rfl rfl (by decide)

/-! ## Claim C9 -/

/-- C9: whenever the promise returned by `startOAuthFlow` settles through
the callback handler — success, authorization denial via an `error`
query parameter, missing code, or token-exchange failure — the listener
has been closed, and it was actually torn down exactly once; the port is
then free for a subsequent `startOAuthFlow`. -/
theorem claim_C9_oauth_listener_teardown (q : OAuthQuery)
    (exchange : Except Err RespVal) (st : OAuthSrvState)
    (hopen : st.serverOpen = true) :
    (handleCallback st q exchange).state.serverOpen = false ∧
    (handleCallback st q exchange).closes = 1 := by
  have hst : st = ⟨true⟩ := by
    cases st
    simp_all
  subst hst
  by_cases he : jsTruthy q.error = true
  · simp [handleCallback, he, closeServerStep]
  · by_cases hc : jsTruthy q.code = true
    · cases exchange with
      | ok t =>
        simp [handleCallback, he, hc, closeServerStep]
      | error e =>
        simp [handleCallback, he, hc, closeServerStep]
    · simp [handleCallback, he, hc, closeServerStep]

/-- Witness for C9: a denial callback (`error=access_denied`) on an open
listener closes it exactly once. -/
theorem claim_C9_witness :
    (handleCallback ⟨true⟩ ⟨none, some "access_denied"⟩
      (.error (.error "unused"))).state.serverOpen = false ∧
    (handleCallback ⟨true⟩ ⟨none, some "access_denied"⟩
      (.error (.error "unused"))).closes = 1 :=
  claim_C9_oauth_listener_teardown ⟨none, some "access_denied"⟩
    (.error (.error "unused")) ⟨true⟩ rfl

/-! ## Claim C7 -/

/-- Counterexample for C7: with client id/secret set and no access
token, `isConfigured()` is true, but `getEventsForDate` does **not**
fail with a `NoAccessToken`-class error — it catches the internal error
and resolves `null`. -/
theorem claim_C7_counterexample :
    isConfigured ⟨"id", "sec", none, some "rt"⟩ = true ∧
    (getEventsForDateApi ⟨"id", "sec", none, some "rt"⟩ 0 []).result =
      .ok none ∧
    ¬ fetchFailsWithNoToken
      (getEventsForDateApi ⟨"id", "sec", none, some "rt"⟩ 0 []) := by
  refine ⟨rfl, rfl, ?_⟩
  intro h
  obtain ⟨e, he, -⟩ := h
  rw [show (getEventsForDateApi ⟨"id", "sec", none, some "rt"⟩ 0 []).result =
    .ok none from rfl] at he
  exact Except.noConfusion he

/-- C7 amended: when `clientId` and `clientSecret` are non-empty but no
access token is present, `isConfigured()` returns true, and every fetch
operation resolves `null` rather than rejecting: `makeRequest` fails
with `'No access token available'` before any network request is issued,
and the fetch wrappers (`getEventsForDate`, `getTasks`,
`getTasksForDateRange`, `getTasksForDate`) catch that error and return
`null`, issuing no network request — so no network error can occur. -/
theorem claim_C7_no_token_resolves_null (c : Creds) (day day2 : Int)
    (url method : String) (body : Option String) (tr : List HttpOutcome)
    (perList : String → Except Err RespVal)
    (hid : jsTruthy (some c.clientId) = true)
    (hsec : jsTruthy (some c.clientSecret) = true)
    (hat : jsTruthy c.accessToken = false) :
    isConfigured c = true ∧
    (makeRequest c url method body tr).result =
      .error (.error "No access token available") ∧
    (makeRequest c url method body tr).requests = [] ∧
    (getEventsForDateApi c day tr).result = .ok none ∧
    (getEventsForDateApi c day tr).requests = [] ∧
    (getEventsForDateRangeApi c day day2 tr).result = .ok none ∧
    (getEventsForDateRangeApi c day day2 tr).requests = [] ∧
    (getTasksApi c tr).result = .ok none ∧
    (getTasksApi c tr).requests = [] ∧
    (getTasksForDateRangeApi c day day2 tr perList).result = .ok none ∧
    (getTasksForDateRangeApi c day day2 tr perList).requests = [] ∧
    (getTasksForDateApi c day tr perList).result = .ok none ∧
    (getTasksForDateApi c day tr perList).requests = [] := by
  have hmr : ∀ u m b, makeRequest c u m b tr =
      ⟨.error (.error "No access token available"), c, [], tr, []⟩ := by
    intro u m b
    simp [makeRequest, hat]
  refine ⟨by simp [isConfigured, hid, hsec], ?_, ?_, ?_, ?_, ?_, ?_, ?_, ?_,
    ?_, ?_, ?_, ?_⟩ <;>
    simp [hmr, getEventsForDateApi, getEventsForDateRangeApi, getTasksApi,
      getTasksForDateRangeApi, getTasksForDateApi, hid, hsec]

/-- Witness for C7's amended theorem at concrete credentials with no
access token. -/
theorem claim_C7_witness :
    isConfigured ⟨"id", "sec", none, none⟩ = true ∧
    (makeRequest ⟨"id", "sec", none, none⟩ "u" "GET" none []).result =
      .error (.error "No access token available") ∧
    (makeRequest ⟨"id", "sec", none, none⟩ "u" "GET" none []).requests = [] ∧
    (getEventsForDateApi ⟨"id", "sec", none, none⟩ 0 []).result = .ok none ∧
    (getEventsForDateApi ⟨"id", "sec", none, none⟩ 0 []).requests = [] ∧
    (getEventsForDateRangeApi ⟨"id", "sec", none, none⟩ 0 1 []).result =
      .ok none ∧
    (getEventsForDateRangeApi ⟨"id", "sec", none, none⟩ 0 1 []).requests =
      [] ∧
    (getTasksApi ⟨"id", "sec", none, none⟩ []).result = .ok none ∧
    (getTasksApi ⟨"id", "sec", none, none⟩ []).requests = [] ∧
    (getTasksForDateRangeApi ⟨"id", "sec", none, none⟩ 0 1 []
      (fun _ => .error (.error "x"))).result = .ok none ∧
    (getTasksForDateRangeApi ⟨"id", "sec", none, none⟩ 0 1 []
      (fun _ => .error (.error "x"))).requests = [] ∧
    (getTasksForDateApi ⟨"id", "sec", none, none⟩ 0 []
      (fun _ => .error (.error "x"))).result = .ok none ∧
    (getTasksForDateApi ⟨"id", "sec", none, none⟩ 0 []
      (fun _ => .error (.error "x"))).requests = [] :=
  claim_C7_no_token_resolves_null ⟨"id", "sec", none, none⟩ 0 1 "u" "GET"
    none [] (fun _ => .error (.error "x")) rfl rfl rfl

/-! ## Claim C8 -/

/-- Counterexample for C8: a successful refresh whose response body
carries a rotated refresh token (`"newRT"`) replaces the in-memory
access token but leaves the stored refresh token at `"oldRT"` — the
claim's "replaces the stored refresh token as well" is false. -/
theorem claim_C8_counterexample :
    (refreshAccessToken ⟨"id", "sec", some "oldAT", some "oldRT"⟩
      [.ok (.tokens (some "newAT") (some "newRT"))]).result = .ok () ∧
    (refreshAccessToken ⟨"id", "sec", some "oldAT", some "oldRT"⟩
      [.ok (.tokens (some "newAT") (some "newRT"))]).creds.accessToken =
      some "newAT" ∧
    (refreshAccessToken ⟨"id", "sec", some "oldAT", some "oldRT"⟩
      [.ok (.tokens (some "newAT") (some "newRT"))]).creds.refreshToken =
      some "oldRT" ∧
    (refreshAccessToken ⟨"id", "sec", some "oldAT", some "oldRT"⟩
      [.ok (.tokens (some "newAT") (some "newRT"))]).creds.refreshToken ≠
      some "newRT" :=
  ⟨rfl, rfl, rfl, by decide⟩

/-- C8 amended: a successful token refresh whose response carries a
truthy access token replaces the stored in-memory access token, but the
stored refresh token is never replaced — the response body (including
any rotated refresh token) is only forwarded to the external
`onTokensUpdated` callback; a successful refresh without a truthy
access token writes nothing and notifies nobody; a failed refresh
leaves the credentials, refresh token included, entirely unchanged. -/
theorem claim_C8_refresh_updates_access_token_only (c : Creds)
    (tr' : List HttpOutcome) (hrt : jsTruthy c.refreshToken = true) :
    (∀ v, jsTruthy v.access_tokenF = true →
      (refreshAccessToken c (.ok v :: tr')).result = .ok () ∧
      (refreshAccessToken c (.ok v :: tr')).creds.accessToken =
        v.access_tokenF ∧
      (refreshAccessToken c (.ok v :: tr')).creds.refreshToken =
        c.refreshToken ∧
      (refreshAccessToken c (.ok v :: tr')).notified = [v]) ∧
    (∀ v, jsTruthy v.access_tokenF = false →
      (refreshAccessToken c (.ok v :: tr')).result = .ok () ∧
      (refreshAccessToken c (.ok v :: tr')).creds = c ∧
      (refreshAccessToken c (.ok v :: tr')).notified = []) ∧
    (∀ e, (refreshAccessToken c (.err e :: tr')).result = .error e ∧
      (refreshAccessToken c (.err e :: tr')).creds = c) := by
  refine ⟨?_, ?_, ?_⟩
  · intro v hv
    simp [refreshAccessToken, hrt, popOutcome, hv]
  · intro v hv
    simp [refreshAccessToken, hrt, popOutcome, hv]
  · intro e
    simp [refreshAccessToken, hrt, popOutcome]

/-- Witness for C8's amended theorem: a concrete successful refresh with
a rotated refresh token in the response. -/
theorem claim_C8_witness :
    (refreshAccessToken ⟨"id", "sec", some "a0", some "r0"⟩
      [.ok (.tokens (some "a1") (some "r1"))]).result = .ok () ∧
    (refreshAccessToken ⟨"id", "sec", some "a0", some "r0"⟩
      [.ok (.tokens (some "a1") (some "r1"))]).creds.accessToken =
      some "a1" ∧
    (refreshAccessToken ⟨"id", "sec", some "a0", some "r0"⟩
      [.ok (.tokens (some "a1") (some "r1"))]).creds.refreshToken =
      some "r0" ∧
    (refreshAccessToken ⟨"id", "sec", some "a0", some "r0"⟩
      [.ok (.tokens (some "a1") (some "r1"))]).notified =
      [.tokens (some "a1") (some "r1")] :=
  (claim_C8_refresh_updates_access_token_only
    ⟨"id", "sec", some "a0", some "r0"⟩ [] rfl).1
    (.tokens (some "a1") (some "r1")) rfl

/-! ### Membership in the task fan-out -/

theorem taskDueWithin_iff (lo hi : Int) (t : TaskItem) :
    taskDueWithin lo hi t = true ↔
      t.due = none ∨ ∃ d, t.due = some d ∧ lo ≤ d ∧ d ≤ hi := by
  cases hd : t.due <;> simp [taskDueWithin, hd]

theorem tasksFromLists_mem (lists : List TaskListInfo)
    (perList : String → Except Err RespVal) (lo hi : Int) (t : TaskItem) :
    t ∈ tasksFromLists lists perList lo hi ↔
      ∃ l, l ∈ lists ∧ jsTruthy l.id = true ∧
        ∃ resp, perList (jsOr l.id "") = .ok resp ∧ t ∈ resp.taskItemsF ∧
          taskDueWithin lo hi t = true := by
  unfold tasksFromLists
  rw [List.mem_flatten]
  constructor
  · rintro ⟨sub, hsub, ht⟩
    rw [List.mem_map] at hsub
    obtain ⟨l, hl, rfl⟩ := hsub
    cases hid : jsTruthy l.id with
    | false => simp [hid] at ht
    | true =>
      cases hpl : perList (jsOr l.id "") with
      | error e => simp [hid, hpl] at ht
      | ok resp =>
        rw [if_neg (by simp [hid]), hpl] at ht
        have ht' : t ∈ resp.taskItemsF.filter (taskDueWithin lo hi) := ht
        rw [List.mem_filter] at ht'
        exact ⟨l, hl, hid, resp, hpl, ht'.1, ht'.2⟩
  · rintro ⟨l, hl, hid, resp, hpl, htm, hdue⟩
    refine ⟨resp.taskItemsF.filter (taskDueWithin lo hi), ?_, ?_⟩
    · rw [List.mem_map]
      exact ⟨l, hl, by simp [hid, hpl]⟩
    · rw [List.mem_filter]
      exact ⟨htm, hdue⟩

/-! ## Claim C6 -/

/-- Counterexample for C6: `getTasksForDate(1)` includes a task whose
`due` instant (`86399999`, the last millisecond of day 0) lies strictly
before `startOfDay(1)`, because its actual lower bound is
`endOfDay(date) - 365 days`, not `startOfDay(date)`. -/
theorem claim_C6_counterexample :
    (getTasksForDateApi ⟨"id", "sec", some "AT", some "RT"⟩ 1
      [.ok (.taskListsV (some [⟨some "l1", some "L"⟩]))]
      (fun _ => .ok (.tasksV (some [lateTask])))).result =
      .ok (some [lateTask]) ∧
    lateTask.due = some 86399999 ∧
    ¬ (startOfDayMs 1 ≤ 86399999 ∧ (86399999 : Int) ≤ endOfDayMs 1) :=
  ⟨rfl, rfl, by decide⟩

/-- C6 amended: for `getTasksForDateRange(startDate, endDate)` a fetched
task with no `due` is always included, and a task with a `due` is
included iff its due instant lies in `[startOfDay(start), endOfDay(end)]`
inclusive; `getTasksForDate(date)`, however, uses the window
`[endOfDay(date) - 365 days, endOfDay(date)]`, so it also includes tasks
due before `startOfDay(date)` within the preceding 365 days. -/
theorem claim_C6_task_due_windows (c : Creds) (s e day : Int)
    (tr : List HttpOutcome) (perList : String → Except Err RespVal)
    (respL : RespVal) (t : TaskItem)
    (hid : jsTruthy (some c.clientId) = true)
    (hsec : jsTruthy (some c.clientSecret) = true)
    (hls : (makeRequest c "https://www.googleapis.com/tasks/v1/users/@me/lists"
      "GET" none tr).result = .ok respL) :
    ((getTasksForDateRangeApi c s e tr perList).result =
      .ok (some (tasksFromLists respL.taskListItemsF perList
        (startOfDayMs s) (endOfDayMs e))) ∧
     (t ∈ tasksFromLists respL.taskListItemsF perList
        (startOfDayMs s) (endOfDayMs e) ↔
      ∃ l, l ∈ respL.taskListItemsF ∧ jsTruthy l.id = true ∧
        ∃ resp, perList (jsOr l.id "") = .ok resp ∧ t ∈ resp.taskItemsF ∧
          (t.due = none ∨ ∃ d, t.due = some d ∧
            startOfDayMs s ≤ d ∧ d ≤ endOfDayMs e))) ∧
    ((getTasksForDateApi c day tr perList).result =
      .ok (some (tasksFromLists respL.taskListItemsF perList
        (endOfDayMs day - 365 * MS_PER_DAY) (endOfDayMs day))) ∧
     (t ∈ tasksFromLists respL.taskListItemsF perList
        (endOfDayMs day - 365 * MS_PER_DAY) (endOfDayMs day) ↔
      ∃ l, l ∈ respL.taskListItemsF ∧ jsTruthy l.id = true ∧
        ∃ resp, perList (jsOr l.id "") = .ok resp ∧ t ∈ resp.taskItemsF ∧
          (t.due = none ∨ ∃ d, t.due = some d ∧
            endOfDayMs day - 365 * MS_PER_DAY ≤ d ∧ d ≤ endOfDayMs day))) := by
  refine ⟨⟨?_, ?_⟩, ⟨?_, ?_⟩⟩
  · simp [getTasksForDateRangeApi, hid, hsec, hls]
  · simp [tasksFromLists_mem, taskDueWithin_iff]
  · simp [getTasksForDateApi, hid, hsec, hls]
  · simp [tasksFromLists_mem, taskDueWithin_iff]

/-- Witness for C6's amended theorem: one task list, one task due at the
last millisecond of day 0; for the range query over day 1 it is excluded
(due before `startOfDay(1)`), for the single-date query of day 1 it is
included (within the 365-day lookback). -/
theorem claim_C6_witness :
    ((getTasksForDateRangeApi ⟨"id", "sec", some "AT", some "RT"⟩ 1 1
      [.ok (.taskListsV (some [⟨some "l1", some "L"⟩]))]
      (fun _ => .ok (.tasksV (some [lateTask])))).result =
      .ok (some (tasksFromLists
        (RespVal.taskListsV (some [⟨some "l1", some "L"⟩])).taskListItemsF
        (fun _ => .ok (.tasksV (some [lateTask])))
        (startOfDayMs 1) (endOfDayMs 1))) ∧
     (lateTask ∈ tasksFromLists
        (RespVal.taskListsV (some [⟨some "l1", some "L"⟩])).taskListItemsF
        (fun _ => .ok (.tasksV (some [lateTask])))
        (startOfDayMs 1) (endOfDayMs 1) ↔
      ∃ l, l ∈ (RespVal.taskListsV
          (some [⟨some "l1", some "L"⟩])).taskListItemsF ∧
        jsTruthy l.id = true ∧
        ∃ resp, (fun _ => (.ok (.tasksV (some [lateTask])) :
            Except Err RespVal)) (jsOr l.id "") = .ok resp ∧
          lateTask ∈ resp.taskItemsF ∧
          (lateTask.due = none ∨ ∃ d, lateTask.due = some d ∧
            startOfDayMs 1 ≤ d ∧ d ≤ endOfDayMs 1))) ∧
    ((getTasksForDateApi ⟨"id", "sec", some "AT", some "RT"⟩ 1
      [.ok (.taskListsV (some [⟨some "l1", some "L"⟩]))]
      (fun _ => .ok (.tasksV (some [lateTask])))).result =
      .ok (some (tasksFromLists
        (RespVal.taskListsV (some [⟨some "l1", some "L"⟩])).taskListItemsF
        (fun _ => .ok (.tasksV (some [lateTask])))
        (endOfDayMs 1 - 365 * MS_PER_DAY) (endOfDayMs 1))) ∧
     (lateTask ∈ tasksFromLists
        (RespVal.taskListsV (some [⟨some "l1", some "L"⟩])).taskListItemsF
        (fun _ => .ok (.tasksV (some [lateTask])))
        (endOfDayMs 1 - 365 * MS_PER_DAY) (endOfDayMs 1) ↔
      ∃ l, l ∈ (RespVal.taskListsV
          (some [⟨some "l1", some "L"⟩])).taskListItemsF ∧
        jsTruthy l.id = true ∧
        ∃ resp, (fun _ => (.ok (.tasksV (some [lateTask])) :
            Except Err RespVal)) (jsOr l.id "") = .ok resp ∧
          lateTask ∈ resp.taskItemsF ∧
          (lateTask.due = none ∨ ∃ d, lateTask.due = some d ∧
            endOfDayMs 1 - 365 * MS_PER_DAY ≤ d ∧ d ≤ endOfDayMs 1))) :=
  claim_C6_task_due_windows ⟨"id", "sec", some "AT", some "RT"⟩ 1 1 1
    [.ok (.taskListsV (some [⟨some "l1", some "L"⟩]))]
    (fun _ => .ok (.tasksV (some [lateTask])))
    (.taskListsV (some [⟨some "l1", some "L"⟩])) lateTask rfl rfl rfl

/-! ### Cache helper lemmas -/

theorem withRetryL_first_ok {α : Type} (cfg : RetryConfigL)
    (fn : Nat → Except Err α) (rand : Nat → ℚ) (v : α)
    (h : fn 0 = .ok v) : withRetryL cfg fn rand = ⟨.ok v, 1, []⟩ := by
  unfold withRetryL
  cases hm : cfg.maxRetries with
  | zero => exact withRetryGo_zero_ok cfg fn rand 0 v h
  | succ r => exact withRetryGo_succ_ok cfg fn rand 0 r v h

theorem mapGet_nil {α : Type} (k : String) :
    mapGet ([] : CacheMap α) k = none := rfl

theorem mapGet_singleton {α : Type} (k : String) (v : CacheEntry α) :
    mapGet [(k, v)] k = some v := by
  simp [mapGet, List.find?]

theorem getFromCache_nil {α : Type} (now : Nat) (key : String) :
    getFromCache ([] : CacheMap α) now key = (none, []) := by
  simp [getFromCache, mapGet]

theorem getFromCache_hit {α : Type} (cache : CacheMap α) (now : Nat)
    (key : String) (e : CacheEntry α) (h : mapGet cache key = some e)
    (hfresh : ¬ now - e.timestamp > CACHE_TTL) :
    getFromCache cache now key = (some e.data, cache) := by
  simp [getFromCache, h, hfresh]

theorem getFromCache_expired {α : Type} (cache : CacheMap α) (now : Nat)
    (key : String) (e : CacheEntry α) (h : mapGet cache key = some e)
    (hexp : now - e.timestamp > CACHE_TTL) :
    getFromCache cache now key = (none, mapDelete cache key) := by
  simp [getFromCache, h, hexp]

/-! ## Claim C4 -/

/-- C4: with a cold cache, a first facade fetch issues exactly one
underlying API call and caches the transformed result; a second fetch
with the same key whose age is within the 60 s TTL issues no API call
and returns the cached data; a second fetch after the age exceeds the
TTL issues a second API call; and, in general, a cache entry older than
the TTL is never returned. Shown for both `GoogleTasksFacade.fetchTasks`
and `GoogleCalendarFacade.fetchEvents`. -/
theorem claim_C4_cache_round_trip (cfg cfge : RetryConfigL)
    (sd ed : Int) (tlid cid : Option String) (now1 now2 : Nat)
    (items items2 : List TaskItem) (evs evs2 : List EventItem)
    (api api2 : Nat → Except Err (Option (List TaskItem)))
    (eapi eapi2 : Nat → Except Err (Option (List EventItem)))
    (rand rand2 : Nat → ℚ)
    (hapi : api 0 = .ok (some items)) (hapi2 : api2 0 = .ok (some items2))
    (heapi : eapi 0 = .ok (some evs)) (heapi2 : eapi2 0 = .ok (some evs2)) :
    ((fetchTasksF ⟨[], cfg⟩ now1 ⟨some sd, some ed, tlid⟩ api rand).result =
        .ok (items.map transformTask) ∧
      (fetchTasksF ⟨[], cfg⟩ now1 ⟨some sd, some ed, tlid⟩ api rand).apiCalls
        = 1 ∧
      (fetchTasksF ⟨[], cfg⟩ now1 ⟨some sd, some ed, tlid⟩ api
          rand).state.cache =
        [(tasksCacheKey ⟨some sd, some ed, tlid⟩,
          ⟨items.map transformTask, now1⟩)]) ∧
    (¬ now2 - now1 > CACHE_TTL →
      (fetchTasksF (fetchTasksF ⟨[], cfg⟩ now1 ⟨some sd, some ed, tlid⟩ api
          rand).state now2 ⟨some sd, some ed, tlid⟩ api2 rand2).result =
        .ok (items.map transformTask) ∧
      (fetchTasksF (fetchTasksF ⟨[], cfg⟩ now1 ⟨some sd, some ed, tlid⟩ api
          rand).state now2 ⟨some sd, some ed, tlid⟩ api2 rand2).apiCalls = 0) ∧
    (now2 - now1 > CACHE_TTL →
      (fetchTasksF (fetchTasksF ⟨[], cfg⟩ now1 ⟨some sd, some ed, tlid⟩ api
          rand).state now2 ⟨some sd, some ed, tlid⟩ api2 rand2).result =
        .ok (items2.map transformTask) ∧
      (fetchTasksF (fetchTasksF ⟨[], cfg⟩ now1 ⟨some sd, some ed, tlid⟩ api
          rand).state now2 ⟨some sd, some ed, tlid⟩ api2 rand2).apiCalls = 1) ∧
    ((fetchEventsF ⟨[], cfge⟩ now1 ⟨sd, ed, cid⟩ eapi rand).result =
        .ok (evs.map transformEvent) ∧
      (fetchEventsF ⟨[], cfge⟩ now1 ⟨sd, ed, cid⟩ eapi rand).apiCalls = 1 ∧
      (fetchEventsF ⟨[], cfge⟩ now1 ⟨sd, ed, cid⟩ eapi rand).state.cache =
        [(eventsCacheKey ⟨sd, ed, cid⟩, ⟨evs.map transformEvent, now1⟩)]) ∧
    (¬ now2 - now1 > CACHE_TTL →
      (fetchEventsF (fetchEventsF ⟨[], cfge⟩ now1 ⟨sd, ed, cid⟩ eapi
          rand).state now2 ⟨sd, ed, cid⟩ eapi2 rand2).result =
        .ok (evs.map transformEvent) ∧
      (fetchEventsF (fetchEventsF ⟨[], cfge⟩ now1 ⟨sd, ed, cid⟩ eapi
          rand).state now2 ⟨sd, ed, cid⟩ eapi2 rand2).apiCalls = 0) ∧
    (now2 - now1 > CACHE_TTL →
      (fetchEventsF (fetchEventsF ⟨[], cfge⟩ now1 ⟨sd, ed, cid⟩ eapi
          rand).state now2 ⟨sd, ed, cid⟩ eapi2 rand2).result =
        .ok (evs2.map transformEvent) ∧
      (fetchEventsF (fetchEventsF ⟨[], cfge⟩ now1 ⟨sd, ed, cid⟩ eapi
          rand).state now2 ⟨sd, ed, cid⟩ eapi2 rand2).apiCalls = 1) ∧
    (∀ (α : Type) (cache : CacheMap α) (now : Nat) (key : String)
        (en : CacheEntry α), mapGet cache key = some en →
      now - en.timestamp > CACHE_TTL →
      (getFromCache cache now key).1 = none) := by
  have hrun1 : fetchTasksF ⟨[], cfg⟩ now1 ⟨some sd, some ed, tlid⟩ api rand =
      ⟨.ok (items.map transformTask),
       ⟨[(tasksCacheKey ⟨some sd, some ed, tlid⟩,
          ⟨items.map transformTask, now1⟩)], cfg⟩, 1⟩ := by
    simp [fetchTasksF, getFromCache_nil, withRetryL_first_ok cfg api rand _
      hapi, mapSet]
  have herun1 : fetchEventsF ⟨[], cfge⟩ now1 ⟨sd, ed, cid⟩ eapi rand =
      ⟨.ok (evs.map transformEvent),
       ⟨[(eventsCacheKey ⟨sd, ed, cid⟩, ⟨evs.map transformEvent, now1⟩)],
         cfge⟩, 1⟩ := by
    simp [fetchEventsF, getFromCache_nil, withRetryL_first_ok cfge eapi rand _
      heapi, mapSet]
  refine ⟨?_, ?_, ?_, ?_, ?_, ?_, ?_⟩
  · rw [hrun1]
    exact ⟨rfl, rfl, rfl⟩
  · intro hfresh
    rw [hrun1]
    have hget := getFromCache_hit
      [(tasksCacheKey ⟨some sd, some ed, tlid⟩,
        ⟨items.map transformTask, now1⟩)] now2
      (tasksCacheKey ⟨some sd, some ed, tlid⟩)
      ⟨items.map transformTask, now1⟩ (mapGet_singleton _ _) hfresh
    constructor <;> simp [fetchTasksF, hget]
  · intro hexp
    rw [hrun1]
    have hget := getFromCache_expired
      [(tasksCacheKey ⟨some sd, some ed, tlid⟩,
        ⟨items.map transformTask, now1⟩)] now2
      (tasksCacheKey ⟨some sd, some ed, tlid⟩)
      ⟨items.map transformTask, now1⟩ (mapGet_singleton _ _) hexp
    constructor <;>
      simp [fetchTasksF, hget, withRetryL_first_ok cfg api2 rand2 _ hapi2]
  · rw [herun1]
    exact ⟨rfl, rfl, rfl⟩
  · intro hfresh
    rw [herun1]
    have hget := getFromCache_hit
      [(eventsCacheKey ⟨sd, ed, cid⟩, ⟨evs.map transformEvent, now1⟩)] now2
      (eventsCacheKey ⟨sd, ed, cid⟩) ⟨evs.map transformEvent, now1⟩
      (mapGet_singleton _ _) hfresh
    constructor <;> simp [fetchEventsF, hget]
  · intro hexp
    rw [herun1]
    have hget := getFromCache_expired
      [(eventsCacheKey ⟨sd, ed, cid⟩, ⟨evs.map transformEvent, now1⟩)] now2
      (eventsCacheKey ⟨sd, ed, cid⟩) ⟨evs.map transformEvent, now1⟩
      (mapGet_singleton _ _) hexp
    constructor <;>
      simp [fetchEventsF, hget, withRetryL_first_ok cfge eapi2 rand2 _ heapi2]
  · intro α cache now key en hget hexp
    rw [getFromCache_expired cache now key en hget hexp]

/-- Witness for C4: a concrete cold-cache fetch issues one API call; a
repeat fetch 60 000 ms later (exactly at the TTL bound, hence not
expired) issues none and returns the transformed cached data; the events
facade behaves alike. -/
theorem claim_C4_witness :
    (fetchTasksF ⟨[], cfgNoJitter⟩ 0 ⟨some 0, some 1, none⟩
      (fun _ => .ok (some [sampleTaskItem])) (fun _ => 0)).apiCalls = 1 ∧
    (fetchTasksF (fetchTasksF ⟨[], cfgNoJitter⟩ 0 ⟨some 0, some 1, none⟩
        (fun _ => .ok (some [sampleTaskItem])) (fun _ => 0)).state 60000
      ⟨some 0, some 1, none⟩ (fun _ => .ok (some []))
      (fun _ => 0)).apiCalls = 0 ∧
    (fetchTasksF (fetchTasksF ⟨[], cfgNoJitter⟩ 0 ⟨some 0, some 1, none⟩
        (fun _ => .ok (some [sampleTaskItem])) (fun _ => 0)).state 60000
      ⟨some 0, some 1, none⟩ (fun _ => .ok (some []))
      (fun _ => 0)).result = .ok ([sampleTaskItem].map transformTask) ∧
    (fetchEventsF ⟨[], cfgJitter⟩ 0 ⟨0, 1, none⟩
      (fun _ => .ok (some [sampleEventItem])) (fun _ => 0)).apiCalls = 1 := by
  have h := claim_C4_cache_round_trip cfgNoJitter cfgJitter 0 1 none none
    0 60000 [sampleTaskItem] [] [sampleEventItem] []
    (fun _ => .ok (some [sampleTaskItem])) (fun _ => .ok (some []))
    (fun _ => .ok (some [sampleEventItem])) (fun _ => .ok (some []))
    (fun _ => 0) (fun _ => 0) rfl rfl rfl rfl
  exact ⟨h.1.2.1, (h.2.1 (by decide)).2, (h.2.1 (by decide)).1,
    h.2.2.2.1.2.1⟩

/-! ## Claim C5 -/

/-- C5: after any successful facade mutation (create/update/complete/
delete task, create/update/delete event) the entire cache of that
facade is cleared — never a partial invalidation — so the next fetch for
any previously-cached key misses (the empty cache returns `null` for
every key) and re-fetches with a fresh underlying API call even though
no entry's TTL had expired. -/
theorem claim_C5_mutation_clears_cache (cfg cfge : RetryConfigL)
    (cache : CacheMap (List TaskN)) (ecache : CacheMap (List CalEventN))
    (fn : Nat → Except Err TaskItem) (fne : Nat → Except Err EventItem)
    (rand : Nat → ℚ) (v : TaskItem) (ve : EventItem)
    (hok : (withRetryL cfg fn rand).result = .ok v)
    (hoke : (withRetryL cfge fne rand).result = .ok ve) :
    (createTaskF ⟨cache, cfg⟩ fn rand).2.cache = [] ∧
    (updateTaskF ⟨cache, cfg⟩ fn rand).2.cache = [] ∧
    (completeTaskF ⟨cache, cfg⟩ fn rand).2.cache = [] ∧
    (deleteTaskF ⟨cache, cfg⟩ fn rand).2.cache = [] ∧
    (createEventF ⟨ecache, cfge⟩ fne rand).2.cache = [] ∧
    (updateEventF ⟨ecache, cfge⟩ fne rand).2.cache = [] ∧
    (deleteEventF ⟨ecache, cfge⟩ fne rand).2.cache = [] ∧
    (∀ (α : Type) (now : Nat) (key : String),
      getFromCache ([] : CacheMap α) now key = (none, [])) ∧
    (∀ (now : Nat) (sd ed : Int) (tlid : Option String)
        (api : Nat → Except Err (Option (List TaskItem))) (rand2 : Nat → ℚ)
        (items : List TaskItem), api 0 = .ok (some items) →
      (fetchTasksF ⟨[], cfg⟩ now ⟨some sd, some ed, tlid⟩ api
        rand2).apiCalls = 1) ∧
    (∀ (now : Nat) (o : FetchEventsOptionsL)
        (eapi : Nat → Except Err (Option (List EventItem)))
        (rand2 : Nat → ℚ) (evs : List EventItem),
      eapi 0 = .ok (some evs) →
      (fetchEventsF ⟨[], cfge⟩ now o eapi rand2).apiCalls = 1) := by
  refine ⟨by simp [createTaskF, hok], by simp [updateTaskF, hok],
    by simp [completeTaskF, updateTaskF, hok], by simp [deleteTaskF, hok],
    by simp [createEventF, hoke], by simp [updateEventF, hoke],
    by simp [deleteEventF, hoke],
    fun α now key => getFromCache_nil now key, ?_, ?_⟩
  · intro now sd ed tlid api rand2 items hapi
    simp [fetchTasksF, getFromCache_nil,
      withRetryL_first_ok cfg api rand2 _ hapi]
  · intro now o eapi rand2 evs heapi
    simp [fetchEventsF, getFromCache_nil,
      withRetryL_first_ok cfge eapi rand2 _ heapi]

/-- Witness for C5: a successful `createTask` on a facade with a warm
cache empties it; likewise `createEvent`; a fetch against the emptied
cache issues one fresh API call. -/
theorem claim_C5_witness :
    (createTaskF ⟨[("0-1-default", ⟨[], 0⟩)], cfgNoJitter⟩
      (fun _ => .ok sampleTaskItem) (fun _ => 0)).2.cache = [] ∧
    (createEventF ⟨[("0-1-primary", ⟨[], 0⟩)], cfgJitter⟩
      (fun _ => .ok sampleEventItem) (fun _ => 0)).2.cache = [] ∧
    (fetchTasksF ⟨[], cfgNoJitter⟩ 5 ⟨some 0, some 1, none⟩
      (fun _ => .ok (some [])) (fun _ => 0)).apiCalls = 1 := by
  have h := claim_C5_mutation_clears_cache cfgNoJitter cfgJitter
    [("0-1-default", ⟨[], 0⟩)] [("0-1-primary", ⟨[], 0⟩)]
    (fun _ => .ok sampleTaskItem) (fun _ => .ok sampleEventItem)
    (fun _ => 0) sampleTaskItem sampleEventItem
    (by rw [withRetryL_first_ok cfgNoJitter (fun _ => .ok sampleTaskItem)
      (fun _ => 0) sampleTaskItem rfl])
    (by rw [withRetryL_first_ok cfgJitter (fun _ => .ok sampleEventItem)
      (fun _ => 0) sampleEventItem rfl])
  exact ⟨h.1, h.2.2.2.2.1,
    h.2.2.2.2.2.2.2.2.1 5 0 1 none (fun _ => .ok (some [])) (fun _ => 0)
      [] rfl⟩

/-! ## Claim C10 -/

/-- C10: a facade mutation that fails after exhausting its retries
returns the wrapped `ServiceError` and leaves the facade state —
including the cache — exactly unchanged (invalidation only happens after
the underlying call succeeds), so a subsequent fetch within the TTL
still returns the pre-mutation cached data with no API call. -/
theorem claim_C10_failed_mutation_preserves_cache
    (st : TasksFacadeState) (ste : EventsFacadeState)
    (fn : Nat → Except Err TaskItem) (fne : Nat → Except Err EventItem)
    (rand : Nat → ℚ) (e ee : Err)
    (herr : (withRetryL st.retryConfig fn rand).result = .error e)
    (herre : (withRetryL ste.retryConfig fne rand).result = .error ee) :
    createTaskF st fn rand =
      (.error (.serviceError "Failed to create task" "GoogleTasksFacade"
        (some e)), st) ∧
    updateTaskF st fn rand =
      (.error (.serviceError "Failed to update task" "GoogleTasksFacade"
        (some e)), st) ∧
    deleteTaskF st fn rand =
      (.error (.serviceError "Failed to delete task" "GoogleTasksFacade"
        (some e)), st) ∧
    createEventF ste fne rand =
      (.error (.serviceError "Failed to create event" "GoogleCalendarFacade"
        (some ee)), ste) ∧
    updateEventF ste fne rand =
      (.error (.serviceError "Failed to update event" "GoogleCalendarFacade"
        (some ee)), ste) ∧
    deleteEventF ste fne rand =
      (.error (.serviceError "Failed to delete event" "GoogleCalendarFacade"
        (some ee)), ste) ∧
    (∀ (o : FetchTasksOptionsL) (now t0 : Nat) (data : List TaskN)
        (api : Nat → Except Err (Option (List TaskItem)))
        (rand2 : Nat → ℚ),
      mapGet st.cache (tasksCacheKey o) = some ⟨data, t0⟩ →
      ¬ now - t0 > CACHE_TTL →
      (fetchTasksF st now o api rand2).result = .ok data ∧
      (fetchTasksF st now o api rand2).apiCalls = 0) ∧
    (∀ (o : FetchEventsOptionsL) (now t0 : Nat) (data : List CalEventN)
        (eapi : Nat → Except Err (Option (List EventItem)))
        (rand2 : Nat → ℚ),
      mapGet ste.cache (eventsCacheKey o) = some ⟨data, t0⟩ →
      ¬ now - t0 > CACHE_TTL →
      (fetchEventsF ste now o eapi rand2).result = .ok data ∧
      (fetchEventsF ste now o eapi rand2).apiCalls = 0) := by
  refine ⟨by simp [createTaskF, herr], by simp [updateTaskF, herr],
    by simp [deleteTaskF, herr], by simp [createEventF, herre],
    by simp [updateEventF, herre], by simp [deleteEventF, herre], ?_, ?_⟩
  · intro o now t0 data api rand2 hmg hfresh
    have hget := getFromCache_hit st.cache now (tasksCacheKey o)
      ⟨data, t0⟩ hmg hfresh
    constructor <;> simp [fetchTasksF, hget]
  · intro o now t0 data eapi rand2 hmg hfresh
    have hget := getFromCache_hit ste.cache now (eventsCacheKey o)
      ⟨data, t0⟩ hmg hfresh
    constructor <;> simp [fetchEventsF, hget]

/-- Witness for C10: a `createTask` whose underlying call fails on every
retry leaves the warm cache intact, and a fetch 100 ms later still
returns the pre-mutation cached data with no API call. -/
theorem claim_C10_witness :
    createTaskF ⟨[("0-1-default", ⟨[transformTask sampleTaskItem], 0⟩)],
        cfgNoJitter⟩ (fun _ => .error (.error "network down"))
        (fun _ => 0) =
      (.error (.serviceError "Failed to create task" "GoogleTasksFacade"
        (some (.error "network down"))),
       ⟨[("0-1-default", ⟨[transformTask sampleTaskItem], 0⟩)],
         cfgNoJitter⟩) ∧
    (fetchTasksF ⟨[("0-1-default", ⟨[transformTask sampleTaskItem], 0⟩)],
        cfgNoJitter⟩ 100 ⟨some 0, some 1, none⟩ (fun _ => .ok (some []))
        (fun _ => 0)).result = .ok [transformTask sampleTaskItem] ∧
    (fetchTasksF ⟨[("0-1-default", ⟨[transformTask sampleTaskItem], 0⟩)],
        cfgNoJitter⟩ 100 ⟨some 0, some 1, none⟩ (fun _ => .ok (some []))
        (fun _ => 0)).apiCalls = 0 ∧
    deleteEventF ⟨[("0-1-primary", ⟨[], 0⟩)], cfgJitter⟩
        (fun _ => .error (.error "network down")) (fun _ => 0) =
      (.error (.serviceError "Failed to delete event" "GoogleCalendarFacade"
        (some (.error "network down"))),
       ⟨[("0-1-primary", ⟨[], 0⟩)], cfgJitter⟩) := by
  have h := claim_C10_failed_mutation_preserves_cache
    ⟨[("0-1-default", ⟨[transformTask sampleTaskItem], 0⟩)], cfgNoJitter⟩
    ⟨[("0-1-primary", ⟨[], 0⟩)], cfgJitter⟩
    (fun _ => .error (.error "network down"))
    (fun _ => .error (.error "network down")) (fun _ => 0)
    (.error "network down") (.error "network down") rfl rfl
  have hfetch := h.2.2.2.2.2.2.1 ⟨some 0, some 1, none⟩ 100 0
    [transformTask sampleTaskItem] (fun _ => .ok (some [])) (fun _ => 0)
    rfl (by decide)
  exact ⟨h.1, hfetch.1, hfetch.2, h.2.2.2.2.2.1⟩
